import Mathlib

/-!
Shallow embedding of openmdao/recorders/case.py: the Case record hierarchy
(Case, DriverCase, SystemCase, SolverCase) and the PromotedToAbsoluteMap
name resolver, together with theorems settling the specification claims.

Modelling conventions:
 - A Python dict keyed by strings is an association list; indexing it is
   dictGet, which returns none exactly when the key is absent (the
   key-not-found condition / KeyError of the source).
 - The raw values container held by a resolver is Option of such an
   association list: none models the Python None passed by the case
   constructors when the source array has no named fields.
 - An alias-table entry is a tuple whose first slot is the absolute name
   (per the data model of the external interface), modelled as a pair of
   the first slot and the remaining slots.
 - A numpy structured array, as consumed by the case constructors, is
   modelled by its dtype names and its first record: the constructors only
   ever evaluate the truthiness of the names and index element 0.
 - Values carried by records are a type parameter; floats of the examples
   are instantiated at the rationals.
-/

namespace OpenMDAOCase

/-- Python dict lookup by string key: some value when present, none when
the key is absent (a key-not-found condition in the source). -/
def dictGet {α : Type} (d : List (String × α)) (k : String) : Option α :=
  (d.find? (fun p => p.1 == k)).map (fun p => p.2)

/-- An alias-table entry: a tuple whose first slot is the absolute name;
the remaining slots are not consulted by this excerpt. -/
abbrev AliasEntry : Type := String × List String

/-- One half of the alias table: promoted name to alias entry. -/
abbrev AliasHalf : Type := List (String × AliasEntry)

/-- The full alias table passed as prom2abs: a dict whose keys are the
direction strings, normally input and output. Modelling it as a dict (and
not a fixed pair of halves) keeps malformed tables representable. -/
abbrev AliasTable : Type := List (String × AliasHalf)

/-- A numpy structured array as consumed by the case constructors: its
dtype names (an empty list models both None and an empty tuple, the falsy
cases of the source) and the field assignment of element 0. -/
structure RecArray (α : Type) where
  names : List String
  firstRow : List (String × α)

/-- The expression in each case constructor: element 0 of the array when
the dtype carries names, and None otherwise. -/
def RecArray.rec0 {α : Type} (a : RecArray α) : Option (List (String × α)) :=
  if a.names.isEmpty then none else some a.firstRow

/-- PromotedToAbsoluteMap: holds the raw values container, the alias table
and the selected direction string, exactly the three attributes set by its
constructor. -/
structure PromotedToAbsoluteMap (α : Type) where
  _values : Option (List (String × α))
  _prom2abs : AliasTable
  _input_output : String

/-- The constructor of PromotedToAbsoluteMap: stores values and prom2abs
unchanged and sets the direction string to output when the flag is true
and to input otherwise. -/
def PromotedToAbsoluteMap.init {α : Type} (values : Option (List (String × α)))
    (prom2abs : AliasTable) (output : Bool) : PromotedToAbsoluteMap α :=
  ⟨values, prom2abs, if output then "output" else "input"⟩

/-- The constructor called with the output flag left at its Python default
of True. -/
def PromotedToAbsoluteMap.initDefault {α : Type} (values : Option (List (String × α)))
    (prom2abs : AliasTable) : PromotedToAbsoluteMap α :=
  PromotedToAbsoluteMap.init values prom2abs true

/-- Indexed lookup: the chain of the source, first the alias table indexed
by the direction string, then the resolved half indexed by the promoted
key, then slot 0 of the entry, and finally the raw values container
indexed by that absolute name. Each step surfaces its failure directly as
none; the evaluation order of the source (alias resolution first, values
container last) is preserved. -/
def PromotedToAbsoluteMap.getitem {α : Type} (m : PromotedToAbsoluteMap α)
    (key : String) : Option α :=
  match dictGet m._prom2abs m._input_output with
  | none => none
  | some half =>
    match dictGet half key with
    | none => none
    | some entry =>
      match m._values with
      | none => none
      | some vals => dictGet vals entry.1

/-- Alias resolution alone: the absolute name obtained from slot 0 of the
entry for the promoted key under the configured direction. -/
def PromotedToAbsoluteMap.resolveAbs {α : Type} (m : PromotedToAbsoluteMap α)
    (key : String) : Option String :=
  (dictGet m._prom2abs m._input_output).bind
    (fun half => (dictGet half key).map (fun e => e.1))

/-- Lookup of an absolute name in the raw values container: none when the
container is absent or the name is missing from it. -/
def PromotedToAbsoluteMap.valuesLookup {α : Type} (m : PromotedToAbsoluteMap α)
    (a : String) : Option α :=
  m._values.bind (fun vals => dictGet vals a)

/-- The base Case record: the six fields stored verbatim by its
constructor. -/
structure Case where
  filename : String
  counter : Int
  iteration_coordinate : String
  timestamp : ℚ
  success : String
  msg : String

/-- The constructor of Case: pure pass-through of its six arguments. -/
def Case.init (filename : String) (counter : Int) (iteration_coordinate : String)
    (timestamp : ℚ) (success : String) (msg : String) : Case :=
  ⟨filename, counter, iteration_coordinate, timestamp, success, msg⟩

/-- DriverCase: the base record plus five variable-group resolvers. -/
structure DriverCase (α : Type) extends Case where
  desvars : PromotedToAbsoluteMap α
  responses : PromotedToAbsoluteMap α
  objectives : PromotedToAbsoluteMap α
  constraints : PromotedToAbsoluteMap α
  sysincludes : PromotedToAbsoluteMap α

/-- The constructor of DriverCase: delegates the six base fields to the
base constructor and wraps each of the five source arrays in a resolver
built from element 0 when the dtype carries names and from None otherwise,
sharing prom2abs and leaving the direction flag at its default. -/
def DriverCase.init {α : Type} (filename : String) (counter : Int)
    (iteration_coordinate : String) (timestamp : ℚ) (success : String) (msg : String)
    (desvars responses objectives constraints sysincludes : RecArray α)
    (prom2abs : AliasTable) : DriverCase α :=
  { toCase := Case.init filename counter iteration_coordinate timestamp success msg
    desvars := PromotedToAbsoluteMap.initDefault desvars.rec0 prom2abs
    responses := PromotedToAbsoluteMap.initDefault responses.rec0 prom2abs
    objectives := PromotedToAbsoluteMap.initDefault objectives.rec0 prom2abs
    constraints := PromotedToAbsoluteMap.initDefault constraints.rec0 prom2abs
    sysincludes := PromotedToAbsoluteMap.initDefault sysincludes.rec0 prom2abs }

/-- SystemCase: the base record plus inputs, outputs and residuals
resolvers. -/
structure SystemCase (α : Type) extends Case where
  inputs : PromotedToAbsoluteMap α
  outputs : PromotedToAbsoluteMap α
  residuals : PromotedToAbsoluteMap α

/-- The constructor of SystemCase: the inputs resolver is built with the
output flag False, the outputs and residuals resolvers with the default. -/
def SystemCase.init {α : Type} (filename : String) (counter : Int)
    (iteration_coordinate : String) (timestamp : ℚ) (success : String) (msg : String)
    (inputs outputs residuals : RecArray α) (prom2abs : AliasTable) : SystemCase α :=
  { toCase := Case.init filename counter iteration_coordinate timestamp success msg
    inputs := PromotedToAbsoluteMap.init inputs.rec0 prom2abs false
    outputs := PromotedToAbsoluteMap.initDefault outputs.rec0 prom2abs
    residuals := PromotedToAbsoluteMap.initDefault residuals.rec0 prom2abs }

/-- SolverCase: the base record plus the two plain error fields and the
outputs and residuals resolvers. -/
structure SolverCase (α : Type) extends Case where
  abs_err : α
  rel_err : α
  outputs : PromotedToAbsoluteMap α
  residuals : PromotedToAbsoluteMap α

/-- The constructor of SolverCase: abs_err and rel_err are stored verbatim
without wrapping; outputs and residuals are wrapped with the default
direction flag. -/
def SolverCase.init {α : Type} (filename : String) (counter : Int)
    (iteration_coordinate : String) (timestamp : ℚ) (success : String) (msg : String)
    (abs_err rel_err : α) (outputs residuals : RecArray α)
    (prom2abs : AliasTable) : SolverCase α :=
  { toCase := Case.init filename counter iteration_coordinate timestamp success msg
    abs_err := abs_err
    rel_err := rel_err
    outputs := PromotedToAbsoluteMap.initDefault outputs.rec0 prom2abs
    residuals := PromotedToAbsoluteMap.initDefault residuals.rec0 prom2abs }

/-- Indexed lookup factors as alias resolution followed by the values
container lookup. -/
theorem getitem_eq_resolve_bind {α : Type} (m : PromotedToAbsoluteMap α)
    (key : String) :
    m.getitem key = (m.resolveAbs key).bind (fun a => m.valuesLookup a) := by
  unfold PromotedToAbsoluteMap.getitem PromotedToAbsoluteMap.resolveAbs
    PromotedToAbsoluteMap.valuesLookup
  cases h1 : dictGet m._prom2abs m._input_output with
  | none => simp
  | some half =>
    cases h2 : dictGet half key with
    | none => simp [h2]
    | some entry =>
      cases h3 : m._values with
      | none => simp [h2, h3]
      | some vals => simp [h2, h3]

/-- When the alias table resolves the key under the configured direction and
the values container is present, lookup equals indexing the container with
slot 0 of the entry. -/
theorem getitem_of_resolved {α : Type} (m : PromotedToAbsoluteMap α) (key : String)
    (half : AliasHalf) (entry : AliasEntry) (vals : List (String × α))
    (hhalf : dictGet m._prom2abs m._input_output = some half)
    (hentry : dictGet half key = some entry)
    (hvals : m._values = some vals) :
    m.getitem key = dictGet vals entry.1 := by
  unfold PromotedToAbsoluteMap.getitem
  simp [hhalf, hentry, hvals]

/-- When the promoted key has no entry under the configured direction, lookup
fails. -/
theorem getitem_none_of_alias_miss {α : Type} (m : PromotedToAbsoluteMap α) (key : String)
    (h : (dictGet m._prom2abs m._input_output).bind (fun half => dictGet half key) = none) :
    m.getitem key = none := by
  rw [getitem_eq_resolve_bind]
  unfold PromotedToAbsoluteMap.resolveAbs
  cases h1 : dictGet m._prom2abs m._input_output with
  | none => rfl
  | some half =>
    rw [h1] at h
    simp only [Option.some_bind] at h
    simp [h]

/-- C1: for a resolver whose alias table has an entry for the looked-up
promoted name under the configured direction and whose raw values container
is present and contains the resolved absolute key, indexed lookup returns
exactly the value obtained by taking slot 0 of the alias entry and indexing
the raw values container with it. The concrete instance of the claim (alias
table sending x to comp.x under output, raw value 7/2 at comp.x) is the
witness theorem. -/
theorem c1_lookup_returns_resolved_value {α : Type} (m : PromotedToAbsoluteMap α)
    (key : String) (half : AliasHalf) (entry : AliasEntry)
    (vals : List (String × α)) (v : α)
    (hhalf : dictGet m._prom2abs m._input_output = some half)
    (hentry : dictGet half key = some entry)
    (hvals : m._values = some vals)
    (hv : dictGet vals entry.1 = some v) :
    m.getitem key = some v :=
  (getitem_of_resolved m key half entry vals hhalf hentry hvals).trans hv

/-- Witness for C1: the spec example with 3.5 read as the rational 7/2: an
output-direction resolver over raw values comp.x maps-to 7/2 with alias
entry x maps-to comp.x returns 7/2 for x. -/
theorem c1_lookup_returns_resolved_value_witness :
    (PromotedToAbsoluteMap.initDefault (some [("comp.x", (7 / 2 : ℚ))])
        [("output", [("x", ("comp.x", ([] : List String)))])]).getitem "x" =
      some (7 / 2 : ℚ) :=
  c1_lookup_returns_resolved_value _ "x" [("x", ("comp.x", []))] ("comp.x", [])
    [("comp.x", (7 / 2 : ℚ))] (7 / 2 : ℚ) rfl rfl rfl rfl

/-- C2: indexed lookup fails exactly when the promoted name has no entry in
the alias table under the configured direction, or the resolved absolute key
is absent from the raw values container (an absent container contains
nothing). The failure is the direct result of the lookup itself: getitem is
a pure function of the resolver and the key, with no retrying or recovery
step, so none is surfaced to the caller at the point of indexed access. -/
theorem c2_lookup_failure_iff {α : Type} (m : PromotedToAbsoluteMap α) (key : String) :
    m.getitem key = none ↔
      (m.resolveAbs key = none ∨
        ∃ a, m.resolveAbs key = some a ∧ m.valuesLookup a = none) := by
  rw [getitem_eq_resolve_bind]
  cases h : m.resolveAbs key with
  | none => simp
  | some a => simp [h]

/-- C3: a resolver built with an absent raw values container (the None the
case constructors pass when the source record has no named fields), or with
an empty one, is still a perfectly well-formed value, and every lookup on it
fails, for every key, every alias table and both directions. -/
theorem c3_absent_values_always_fails {α : Type} (prom2abs : AliasTable)
    (b : Bool) (key : String) :
    (PromotedToAbsoluteMap.init (none : Option (List (String × α))) prom2abs b).getitem
        key = none ∧
    (PromotedToAbsoluteMap.init (some ([] : List (String × α))) prom2abs b).getitem
        key = none := by
  constructor
  · rw [getitem_eq_resolve_bind]
    cases h : (PromotedToAbsoluteMap.init (none : Option (List (String × α)))
        prom2abs b).resolveAbs key with
    | none => rfl
    | some a => simp [PromotedToAbsoluteMap.valuesLookup, PromotedToAbsoluteMap.init]
  · rw [getitem_eq_resolve_bind]
    cases h : (PromotedToAbsoluteMap.init (some ([] : List (String × α)))
        prom2abs b).resolveAbs key with
    | none => rfl
    | some a =>
      simp [PromotedToAbsoluteMap.valuesLookup, PromotedToAbsoluteMap.init, dictGet]

/-- C4: direction selection is exclusive. The default direction is output;
a resolver stores the direction string output when the flag is true and
input when it is false; and a lookup of a key with no entry under the
configured half fails even when the key is present in the other half. -/
theorem c4_direction_exclusive {α : Type} (values : Option (List (String × α)))
    (prom2abs : AliasTable) (b : Bool) (key : String)
    (hconf : (dictGet prom2abs
        ((PromotedToAbsoluteMap.init values prom2abs b)._input_output)).bind
        (fun half => dictGet half key) = none)
    (_hother : ((dictGet prom2abs
        ((PromotedToAbsoluteMap.init values prom2abs (!b))._input_output)).bind
        (fun half => dictGet half key)).isSome = true) :
    (PromotedToAbsoluteMap.init values prom2abs b).getitem key = none ∧
    (PromotedToAbsoluteMap.initDefault values prom2abs)._input_output = "output" ∧
    (PromotedToAbsoluteMap.init values prom2abs true)._input_output = "output" ∧
    (PromotedToAbsoluteMap.init values prom2abs false)._input_output = "input" :=
  ⟨getitem_none_of_alias_miss _ key hconf, rfl, rfl, rfl⟩

/-- Witness for C4: an output-direction resolver over an alias table whose
only half is the input one, with x present there, still fails to look up x. -/
theorem c4_direction_exclusive_witness :
    (PromotedToAbsoluteMap.init (some [("comp.x", (7 / 2 : ℚ))])
        [("input", [("x", ("comp.x", ([] : List String)))])] true).getitem "x" = none ∧
    (PromotedToAbsoluteMap.initDefault (some [("comp.x", (7 / 2 : ℚ))])
        [("input", [("x", ("comp.x", ([] : List String)))])])._input_output = "output" ∧
    (PromotedToAbsoluteMap.init (some [("comp.x", (7 / 2 : ℚ))])
        [("input", [("x", ("comp.x", ([] : List String)))])] true)._input_output =
      "output" ∧
    (PromotedToAbsoluteMap.init (some [("comp.x", (7 / 2 : ℚ))])
        [("input", [("x", ("comp.x", ([] : List String)))])] false)._input_output =
      "input" :=
  c4_direction_exclusive (some [("comp.x", (7 / 2 : ℚ))])
    [("input", [("x", ("comp.x", ([] : List String)))])] true "x" rfl rfl

/-- C5: round-trip through a SystemCase. When the three source arrays carry
named fields and the alias table resolves a promoted name for each group
(inputs under the input half, outputs and residuals under the output half),
retrieving that name from the group resolver yields exactly the value read
from field slot-0-of-the-entry of element 0 of the source array the group
was constructed from. -/
theorem c5_systemcase_roundtrip {α : Type} (fn : String) (cnt : Int) (ic : String)
    (ts : ℚ) (suc : String) (ms : String)
    (inputs outputs residuals : RecArray α) (prom2abs : AliasTable)
    (kin kout kres : String) (hain haout : AliasHalf) (ein eout eres : AliasEntry)
    (hinn : inputs.names.isEmpty = false)
    (houtn : outputs.names.isEmpty = false)
    (hresn : residuals.names.isEmpty = false)
    (h1 : dictGet prom2abs "input" = some hain)
    (h2 : dictGet hain kin = some ein)
    (h3 : dictGet prom2abs "output" = some haout)
    (h4 : dictGet haout kout = some eout)
    (h5 : dictGet haout kres = some eres) :
    (SystemCase.init fn cnt ic ts suc ms inputs outputs residuals
        prom2abs).inputs.getitem kin = dictGet inputs.firstRow ein.1 ∧
    (SystemCase.init fn cnt ic ts suc ms inputs outputs residuals
        prom2abs).outputs.getitem kout = dictGet outputs.firstRow eout.1 ∧
    (SystemCase.init fn cnt ic ts suc ms inputs outputs residuals
        prom2abs).residuals.getitem kres = dictGet residuals.firstRow eres.1 := by
  refine ⟨?_, ?_, ?_⟩
  · exact getitem_of_resolved _ kin hain ein inputs.firstRow h1 h2
      (by simp [SystemCase.init, PromotedToAbsoluteMap.init, RecArray.rec0, hinn])
  · exact getitem_of_resolved _ kout haout eout outputs.firstRow h3 h4
      (by simp [SystemCase.init, PromotedToAbsoluteMap.initDefault,
        PromotedToAbsoluteMap.init, RecArray.rec0, houtn])
  · exact getitem_of_resolved _ kres haout eres residuals.firstRow h3 h5
      (by simp [SystemCase.init, PromotedToAbsoluteMap.initDefault,
        PromotedToAbsoluteMap.init, RecArray.rec0, hresn])

/-- Witness for C5: a concrete SystemCase over rational values whose three
groups each resolve one promoted name. -/
theorem c5_systemcase_roundtrip_witness :
    (SystemCase.init "f" 1 "rank0" 0 "ok" "" (⟨["comp.a"], [("comp.a", (1 : ℚ))]⟩)
        (⟨["comp.x"], [("comp.x", (7 / 2 : ℚ))]⟩) (⟨["comp.r"], [("comp.r", (0 : ℚ))]⟩)
        [("input", [("a", ("comp.a", []))]),
          ("output", [("x", ("comp.x", [])), ("r", ("comp.r", []))])]).inputs.getitem
        "a" = dictGet [("comp.a", (1 : ℚ))] "comp.a" ∧
    (SystemCase.init "f" 1 "rank0" 0 "ok" "" (⟨["comp.a"], [("comp.a", (1 : ℚ))]⟩)
        (⟨["comp.x"], [("comp.x", (7 / 2 : ℚ))]⟩) (⟨["comp.r"], [("comp.r", (0 : ℚ))]⟩)
        [("input", [("a", ("comp.a", []))]),
          ("output", [("x", ("comp.x", [])), ("r", ("comp.r", []))])]).outputs.getitem
        "x" = dictGet [("comp.x", (7 / 2 : ℚ))] "comp.x" ∧
    (SystemCase.init "f" 1 "rank0" 0 "ok" "" (⟨["comp.a"], [("comp.a", (1 : ℚ))]⟩)
        (⟨["comp.x"], [("comp.x", (7 / 2 : ℚ))]⟩) (⟨["comp.r"], [("comp.r", (0 : ℚ))]⟩)
        [("input", [("a", ("comp.a", []))]),
          ("output", [("x", ("comp.x", [])), ("r", ("comp.r", []))])]).residuals.getitem
        "r" = dictGet [("comp.r", (0 : ℚ))] "comp.r" :=
  c5_systemcase_roundtrip "f" 1 "rank0" 0 "ok" "" _ _ _ _ "a" "x" "r"
    [("a", ("comp.a", []))] [("x", ("comp.x", [])), ("r", ("comp.r", []))]
    ("comp.a", []) ("comp.x", []) ("comp.r", []) rfl rfl rfl rfl rfl rfl rfl rfl

/-- C6: every base field of every case variant reads back as exactly the
value passed at construction, with no transformation or validation. -/
theorem c6_base_fields_passthrough {α : Type} (fn : String) (cnt : Int) (ic : String)
    (ts : ℚ) (suc : String) (ms : String)
    (dv rs ob cs si inp outp res o2 r2 : RecArray α) (ae re : α)
    (prom2abs : AliasTable) :
    ((Case.init fn cnt ic ts suc ms).filename = fn ∧
      (Case.init fn cnt ic ts suc ms).counter = cnt ∧
      (Case.init fn cnt ic ts suc ms).iteration_coordinate = ic ∧
      (Case.init fn cnt ic ts suc ms).timestamp = ts ∧
      (Case.init fn cnt ic ts suc ms).success = suc ∧
      (Case.init fn cnt ic ts suc ms).msg = ms) ∧
    ((DriverCase.init fn cnt ic ts suc ms dv rs ob cs si prom2abs).filename = fn ∧
      (DriverCase.init fn cnt ic ts suc ms dv rs ob cs si prom2abs).counter = cnt ∧
      (DriverCase.init fn cnt ic ts suc ms dv rs ob cs si
        prom2abs).iteration_coordinate = ic ∧
      (DriverCase.init fn cnt ic ts suc ms dv rs ob cs si prom2abs).timestamp = ts ∧
      (DriverCase.init fn cnt ic ts suc ms dv rs ob cs si prom2abs).success = suc ∧
      (DriverCase.init fn cnt ic ts suc ms dv rs ob cs si prom2abs).msg = ms) ∧
    ((SystemCase.init fn cnt ic ts suc ms inp outp res prom2abs).filename = fn ∧
      (SystemCase.init fn cnt ic ts suc ms inp outp res prom2abs).counter = cnt ∧
      (SystemCase.init fn cnt ic ts suc ms inp outp res
        prom2abs).iteration_coordinate = ic ∧
      (SystemCase.init fn cnt ic ts suc ms inp outp res prom2abs).timestamp = ts ∧
      (SystemCase.init fn cnt ic ts suc ms inp outp res prom2abs).success = suc ∧
      (SystemCase.init fn cnt ic ts suc ms inp outp res prom2abs).msg = ms) ∧
    ((SolverCase.init fn cnt ic ts suc ms ae re o2 r2 prom2abs).filename = fn ∧
      (SolverCase.init fn cnt ic ts suc ms ae re o2 r2 prom2abs).counter = cnt ∧
      (SolverCase.init fn cnt ic ts suc ms ae re o2 r2
        prom2abs).iteration_coordinate = ic ∧
      (SolverCase.init fn cnt ic ts suc ms ae re o2 r2 prom2abs).timestamp = ts ∧
      (SolverCase.init fn cnt ic ts suc ms ae re o2 r2 prom2abs).success = suc ∧
      (SolverCase.init fn cnt ic ts suc ms ae re o2 r2 prom2abs).msg = ms) :=
  ⟨⟨rfl, rfl, rfl, rfl, rfl, rfl⟩, ⟨rfl, rfl, rfl, rfl, rfl, rfl⟩,
    ⟨rfl, rfl, rfl, rfl, rfl, rfl⟩, ⟨rfl, rfl, rfl, rfl, rfl, rfl⟩⟩

/-- C7: the resolver constructor performs no validation and cannot fail: it
is a total function that stores the values container, the alias table and
the computed direction string verbatim, inspecting none of them, for every
values container including the absent one and every alias table including
malformed ones. Lookups, and hence any failure, happen only in getitem. -/
theorem c7_construction_never_validates {α : Type}
    (values : Option (List (String × α))) (prom2abs : AliasTable) (b : Bool) :
    (PromotedToAbsoluteMap.init values prom2abs b)._values = values ∧
    (PromotedToAbsoluteMap.init values prom2abs b)._prom2abs = prom2abs ∧
    (PromotedToAbsoluteMap.init values prom2abs b)._input_output =
      (if b then "output" else "input") :=
  ⟨rfl, rfl, rfl⟩

/-- C8: a DriverCase carries a fifth resolver, sysincludes, built from its
source array exactly like the four documented groups: element 0 when the
dtype carries names and absent otherwise, the shared alias table, and the
default output direction. -/
theorem c8_drivercase_sysincludes {α : Type} (fn : String) (cnt : Int) (ic : String)
    (ts : ℚ) (suc : String) (ms : String)
    (dv rs ob cs si : RecArray α) (prom2abs : AliasTable) :
    (DriverCase.init fn cnt ic ts suc ms dv rs ob cs si prom2abs).sysincludes =
      PromotedToAbsoluteMap.initDefault si.rec0 prom2abs ∧
    (DriverCase.init fn cnt ic ts suc ms dv rs ob cs si
        prom2abs).sysincludes._values =
      (if si.names.isEmpty then none else some si.firstRow) ∧
    (DriverCase.init fn cnt ic ts suc ms dv rs ob cs si
        prom2abs).sysincludes._prom2abs = prom2abs ∧
    (DriverCase.init fn cnt ic ts suc ms dv rs ob cs si
        prom2abs).sysincludes._input_output = "output" ∧
    (DriverCase.init fn cnt ic ts suc ms dv rs ob cs si prom2abs).desvars =
      PromotedToAbsoluteMap.initDefault dv.rec0 prom2abs ∧
    (DriverCase.init fn cnt ic ts suc ms dv rs ob cs si prom2abs).responses =
      PromotedToAbsoluteMap.initDefault rs.rec0 prom2abs ∧
    (DriverCase.init fn cnt ic ts suc ms dv rs ob cs si prom2abs).objectives =
      PromotedToAbsoluteMap.initDefault ob.rec0 prom2abs ∧
    (DriverCase.init fn cnt ic ts suc ms dv rs ob cs si prom2abs).constraints =
      PromotedToAbsoluteMap.initDefault cs.rec0 prom2abs :=
  ⟨rfl, rfl, rfl, rfl, rfl, rfl, rfl, rfl⟩

/-- C9: SolverCase stores abs_err and rel_err verbatim as plain fields, not
wrapped in a resolver, while its outputs and residuals groups are wrapped in
output-direction resolvers. -/
theorem c9_solvercase_err_passthrough {α : Type} (fn : String) (cnt : Int)
    (ic : String) (ts : ℚ) (suc : String) (ms : String) (ae re : α)
    (o2 r2 : RecArray α) (prom2abs : AliasTable) :
    (SolverCase.init fn cnt ic ts suc ms ae re o2 r2 prom2abs).abs_err = ae ∧
    (SolverCase.init fn cnt ic ts suc ms ae re o2 r2 prom2abs).rel_err = re ∧
    (SolverCase.init fn cnt ic ts suc ms ae re o2 r2 prom2abs).outputs =
      PromotedToAbsoluteMap.initDefault o2.rec0 prom2abs ∧
    (SolverCase.init fn cnt ic ts suc ms ae re o2 r2
        prom2abs).outputs._input_output = "output" ∧
    (SolverCase.init fn cnt ic ts suc ms ae re o2 r2 prom2abs).residuals =
      PromotedToAbsoluteMap.initDefault r2.rec0 prom2abs ∧
    (SolverCase.init fn cnt ic ts suc ms ae re o2 r2
        prom2abs).residuals._input_output = "output" :=
  ⟨rfl, rfl, rfl, rfl, rfl, rfl⟩

/-- C10: direction wiring. Every resolver the constructor can produce has
its direction string equal to input or to output, and among the groups
attached by the three case variants only the inputs group of SystemCase is
wired to input: all five DriverCase groups, SystemCase outputs and
residuals, and SolverCase outputs and residuals are wired to output. -/
theorem c10_direction_wiring {α : Type} (values : Option (List (String × α)))
    (b : Bool) (fn : String) (cnt : Int) (ic : String) (ts : ℚ) (suc : String)
    (ms : String) (dv rs ob cs si inp outp res o2 r2 : RecArray α) (ae re : α)
    (prom2abs : AliasTable) :
    ((PromotedToAbsoluteMap.init values prom2abs b)._input_output = "input" ∨
      (PromotedToAbsoluteMap.init values prom2abs b)._input_output = "output") ∧
    (DriverCase.init fn cnt ic ts suc ms dv rs ob cs si
        prom2abs).desvars._input_output = "output" ∧
    (DriverCase.init fn cnt ic ts suc ms dv rs ob cs si
        prom2abs).responses._input_output = "output" ∧
    (DriverCase.init fn cnt ic ts suc ms dv rs ob cs si
        prom2abs).objectives._input_output = "output" ∧
    (DriverCase.init fn cnt ic ts suc ms dv rs ob cs si
        prom2abs).constraints._input_output = "output" ∧
    (DriverCase.init fn cnt ic ts suc ms dv rs ob cs si
        prom2abs).sysincludes._input_output = "output" ∧
    (SystemCase.init fn cnt ic ts suc ms inp outp res
        prom2abs).inputs._input_output = "input" ∧
    (SystemCase.init fn cnt ic ts suc ms inp outp res
        prom2abs).outputs._input_output = "output" ∧
    (SystemCase.init fn cnt ic ts suc ms inp outp res
        prom2abs).residuals._input_output = "output" ∧
    (SolverCase.init fn cnt ic ts suc ms ae re o2 r2
        prom2abs).outputs._input_output = "output" ∧
    (SolverCase.init fn cnt ic ts suc ms ae re o2 r2
        prom2abs).residuals._input_output = "output" := by
  refine ⟨?_, rfl, rfl, rfl, rfl, rfl, rfl, rfl, rfl, rfl, rfl⟩
  cases b
  · exact Or.inl rfl
  · exact Or.inr rfl

end OpenMDAOCase
